import Mathlib

/-!
Shallow embedding of the `sebnyberg/mapbox` Go client library.

The library is a thin HTTP client: it builds request URLs from a client's
credentials and a tileset identifier, sends JSON or multipart bodies, and
decodes JSON responses.  The embedding models:

* strings as Lean `String`;
* the HTTP layer as an explicit environment: each operation takes the
  outcome of the `ctxhttp.Do` call it would issue (transport failure, or a
  status code together with the result of JSON-decoding the body into the
  Go struct the operation decodes into), and returns its Go result paired
  with the list of HTTP requests it issued, in order;
* Go `error` values as an inductive `GoErr` whose constructors correspond
  to the sentinel errors the code wraps with `%w` (`ErrValidation`,
  `ErrOperation`, `ErrParse`, `ErrUnexpected`, `ErrNotFound`) plus a
  `plain` constructor for errors built with `errors.New`; `GoErr.kind`
  models what a caller can distinguish with `errors.Is`;
* `http.NewRequest` as always succeeding (the URLs are built from constant
  templates; a failure is possible in Go only for identifiers containing
  characters illegal in URLs, a branch no claim depends on), and JSON
  encoding of `TilesetRecipe` as always succeeding (encoding of a Go
  struct of strings/ints/maps cannot fail).
-/

namespace Mapbox

/-- Computes Go's `strings.HasPrefix(s, p)` on rune lists. -/
def strStartsWithList : List Char → List Char → Bool
  | [], _ => true
  | _ :: _, [] => false
  | p :: ps, c :: cs => p = c && strStartsWithList ps cs

/-- Helper for `strContains`: does `needle` start at some position of the list? -/
def strContainsAux (needle : List Char) : List Char → Bool
  | [] => strStartsWithList needle []
  | c :: cs => strStartsWithList needle (c :: cs) || strContainsAux needle cs

/-- Go's `strings.Contains(hay, needle)`. -/
def strContains (hay needle : String) : Bool :=
  strContainsAux needle.data hay.data

/-- Go's `strings.HasPrefix(s, p)`. -/
def hasPrefixGo (s p : String) : Bool :=
  strStartsWithList p.data s.data

/-- The module-level constant from `mapbox.go`. -/
def baseURL : String := "https://api.mapbox.com"

/-- The `Client` struct: username, access token (the `*http.Client` handle
carries no data relevant to the embedding). -/
structure Client where
  username : String
  accessToken : String
  deriving DecidableEq, Repr

/-- Go error values as the code produces them.  Constructors other than
`plain` model `fmt.Errorf("... %w ...", sentinel, detail)` wrapping one of
the package's sentinel errors; `plain` models `errors.New(msg)`.

The `notFound` constructor corresponds to the sentinel `ErrNotFound`
referenced by `PublishTileset`. Modelled from the spec: `ErrNotFound` is
declared outside the available source files; the spec says "A 404 is a
distinct \"not found\" error kind", so `notFound` is a constructor of its
own, distinct from the others. -/
inductive GoErr where
  | validation (detail : String)
  | operation (detail : String)
  | parse (detail : String)
  | unexpected (detail : String)
  | notFound (detail : String)
  | plain (msg : String)
  deriving DecidableEq, Repr

/-- The sentinel a Go caller can test with `errors.Is`; `plain` errors wrap
no sentinel. -/
inductive ErrKind where
  | validation
  | operation
  | parse
  | unexpected
  | notFound
  | plain
  deriving DecidableEq, Repr

/-- The kind of an error, i.e. which sentinel `errors.Is` matches. -/
def GoErr.kind : GoErr → ErrKind
  | .validation _ => .validation
  | .operation _ => .operation
  | .parse _ => .parse
  | .unexpected _ => .unexpected
  | .notFound _ => .notFound
  | .plain _ => .plain

/-- An HTTP request as issued by the library: method and full URL.
(Bodies and headers carry no information the claims depend on.) -/
structure Request where
  method : String
  url : String
  deriving DecidableEq, Repr

/-- Outcome of a `ctxhttp.Do` call, as seen by an operation that decodes
the response body into shape `α`: either a transport error, or a status
code together with the JSON-decode result of the body into `α`. -/
inductive HttpOutcome (α : Type) where
  | fail (msg : String)
  | resp (status : Nat) (body : Except String α)

/-- Embeds `NewClient` from the client-construction source file.  The function
body performs no HTTP call, so its request trace is `[]`. -/
def NewClient (accessToken username : String) :
    Except GoErr Client × List Request :=
  if username.length = 0 then
    (.error (.validation "username is required"), [])
  else if accessToken.length = 0 then
    (.error (.validation "access token is required"), [])
  else
    (.ok { username := username, accessToken := accessToken }, [])

/-- Embeds `TilesetRecipeLayer` from `tileset.go` (fields carried verbatim). -/
structure TilesetRecipeLayer where
  source : String
  minZoom : Int
  maxZoom : Int
  deriving DecidableEq, Repr

/-- Embeds `TilesetRecipe` from `tileset.go`; the Go `map[string]...` is modelled
as an association list (its contents are sent verbatim and never inspected
by the library). -/
structure TilesetRecipe where
  version : Int
  layers : List (String × TilesetRecipeLayer)
  deriving DecidableEq, Repr

/-- Embeds `UpdateTilesetErrResponse` from `tileset.go`. -/
structure UpdateTilesetErrResponse where
  message : String
  errors : List String
  deriving DecidableEq, Repr

/-- The id-qualification step shared by `UpsertTileset`,
`UpdateTilesetRecipe` and `PublishTileset`:
`if !strings.HasPrefix(tileset, c.username) { tileset = c.username + "." + tileset }`. -/
def qualifyTileset (username tileset : String) : String :=
  if hasPrefixGo tileset username then tileset else username ++ "." ++ tileset

/-- Embeds `UpdateTilesetRecipe` from `tileset.go`.  `resp` is the outcome of the
PATCH this operation issues. -/
def UpdateTilesetRecipe (c : Client) (tileset : String) (_recipe : TilesetRecipe)
    (resp : HttpOutcome UpdateTilesetErrResponse) :
    Option GoErr × List Request :=
  if tileset.length = 0 then
    (some (.validation "tileset is required"), [])
  else
    let tileset := qualifyTileset c.username tileset
    let url := baseURL ++ "/tilesets/v1/" ++ tileset ++ "/recipe?access_token="
      ++ c.accessToken
    let req : Request := { method := "PATCH", url := url }
    match resp with
    | .fail msg => (some (.operation ("upload recipe failed, err: " ++ msg)), [req])
    | .resp status body =>
      if status = 204 then
        (none, [req])
      else
        match body with
        | .error msg =>
          (some (.parse ("of tileset update response failed, err: " ++ msg)), [req])
        | .ok jsonResp =>
          (some (.plain (jsonResp.message ++ ", errors: "
            ++ String.intercalate "," jsonResp.errors)), [req])

/-- Embeds `UpsertTileset` from `tileset.go`.  `postResp` is the outcome of the
POST to the tileset resource; `patchResp` is the outcome of the recipe
PATCH issued by the fallback call to `UpdateTilesetRecipe`, when reached. -/
def UpsertTileset (c : Client) (tileset : String) (recipe : TilesetRecipe)
    (postResp : HttpOutcome UpdateTilesetErrResponse)
    (patchResp : HttpOutcome UpdateTilesetErrResponse) :
    Option GoErr × List Request :=
  if tileset.length = 0 then
    (some (.validation "tileset is required"), [])
  else
    let tileset := qualifyTileset c.username tileset
    let url := baseURL ++ "/tilesets/v1/" ++ tileset ++ "?access_token="
      ++ c.accessToken
    let req : Request := { method := "POST", url := url }
    match postResp with
    | .fail msg => (some (.operation ("tileset upload failed, err: " ++ msg)), [req])
    | .resp status body =>
      if status = 200 then
        (none, [req])
      else
        match body with
        | .error msg =>
          (some (.parse ("of tileset update response failed, err: " ++ msg)), [req])
        | .ok jsonResp =>
          if strContains jsonResp.message "already exists" then
            let inner := UpdateTilesetRecipe c tileset recipe patchResp
            (inner.1, req :: inner.2)
          else
            (some (.plain (jsonResp.message ++ ", errors: "
              ++ String.intercalate "," jsonResp.errors)), [req])

/-- Embeds `PublishTilesetResponse` from `tileset.go` (`jobId` and `job_id`). -/
structure PublishTilesetResponse where
  message : String
  jobId : String
  jobIdSnakeCased : String
  deriving DecidableEq, Repr

/-- Embeds `PublishTilesetJob` from `tileset.go`, including the back-reference to
the client used by `Poll`. -/
structure PublishTilesetJob where
  message : String
  jobId : String
  tileset : String
  client : Client
  deriving DecidableEq, Repr

/-- Embeds `PublishTileset` from `tileset.go`.  The Go code additionally prints a
warning to stdout when both job-id fields are empty; that print has no
effect on the returned values and is not modelled. -/
def PublishTileset (c : Client) (tileset : String)
    (resp : HttpOutcome PublishTilesetResponse) :
    Except GoErr PublishTilesetJob × List Request :=
  if tileset.length = 0 then
    (.error (.validation "tileset is required"), [])
  else
    let tileset := qualifyTileset c.username tileset
    let url := baseURL ++ "/tilesets/v1/" ++ tileset ++ "/publish?access_token="
      ++ c.accessToken
    let req : Request := { method := "PATCH", url := url }
    match resp with
    | .fail msg => (.error (.operation ("publish tileset failed, err: " ++ msg)), [req])
    | .resp status body =>
      if status = 404 then
        (.error (.notFound ("tileset " ++ tileset)), [req])
      else
        match body with
        | .error msg =>
          (.error (.parse ("of publish tileset response failed, err: " ++ msg)), [req])
        | .ok jsonResp =>
          let jobID :=
            if jsonResp.jobId.length = 0 && jsonResp.jobIdSnakeCased.length != 0 then
              jsonResp.jobIdSnakeCased
            else
              jsonResp.jobId
          (.ok { message := jsonResp.message, jobId := jobID,
                 tileset := tileset, client := c }, [req])

/-- Embeds `PollPublishJobResponse` from `tileset.go`.  The Go fields of type
`[]interface{}` / `map[string]interface{}` hold arbitrary JSON never
inspected by the library; they are modelled as lists of opaque strings. -/
structure PollPublishJobResponse where
  id : String
  stage : String
  created : Int
  createdNice : String
  published : Int
  tilesetId : String
  errors : List String
  warnings : List String
  layerStats : List (String × String)
  deriving DecidableEq, Repr

/-- Embeds `Poll` on `PublishTilesetJob` from `tileset.go`.  Note the Go code
never reads `resp.StatusCode`. -/
def PublishTilesetJob.Poll (j : PublishTilesetJob)
    (resp : HttpOutcome PollPublishJobResponse) :
    Except GoErr PollPublishJobResponse × List Request :=
  let url := baseURL ++ "/tilesets/v1/" ++ j.tileset ++ "/jobs/" ++ j.jobId
    ++ "?access_token=" ++ j.client.accessToken
  let req : Request := { method := "GET", url := url }
  match resp with
  | .fail msg => (.error (.operation ("poll job failed, err: " ++ msg)), [req])
  | .resp _status body =>
    match body with
    | .error msg =>
      (.error (.parse ("of job status response failed, err: " ++ msg)), [req])
    | .ok jsonResp => (.ok jsonResp, [req])

/-- One call of the `setErr` closure in `doMultipart` (`http.go`):
`if err != nil { errOnce.Do(func() { writeErr = err }) }`.  `recorded` is
the current value of `writeErr` (with `errOnce` having fired iff it is
`some`); the result is the value after the call. -/
def setErr (recorded e : Option String) : Option String :=
  match e with
  | none => recorded
  | some _ =>
    match recorded with
    | none => e
    | some _ => recorded

/-- The errors produced by the four steps of the background writer
goroutine in `doMultipart`: `formWriter.CreateFormFile`, `io.Copy`,
`formWriter.Close()`, `bodyWriter.Close()` (`none` = nil error). -/
structure WriterErrs where
  createFormFileErr : Option String
  copyErr : Option String
  formCloseErr : Option String
  pipeCloseErr : Option String
  deriving DecidableEq, Repr

/-- The value of `writeErr` after the goroutine's four `setErr` calls. -/
def writeErr (w : WriterErrs) : Option String :=
  setErr (setErr (setErr (setErr none w.createFormFileErr) w.copyErr)
    w.formCloseErr) w.pipeCloseErr

/-- An `*http.Response` as consumed by the multipart callers: status code
and the JSON-decode result of the body into shape `α`. -/
structure HttpResponse (α : Type) where
  statusCode : Nat
  body : Except String α

/-- Outcome of the `ctxhttp.Do` call inside `doMultipart`: on failure the
returned response is nil. -/
inductive DoOutcome (α : Type) where
  | fail (msg : String)
  | resp (r : HttpResponse α)

/-- Embeds `doMultipart` from `http.go`.  Faithful points: `http.NewRequest` is
called with `http.MethodPut` — the `method` argument is never used; the
error returned by `ctxhttp.Do` is dropped (only `writeErr` is checked), so
on transport failure with no recorded write error the result is
(nil response, nil error).  Result: ((response, error), issued requests). -/
def doMultipart (α : Type) (method url filename : String) (w : WriterErrs)
    (doRes : DoOutcome α) :
    (Option (HttpResponse α) × Option String) × List Request :=
  let _ := method
  let _ := filename
  let req : Request := { method := "PUT", url := url }
  let resp : Option (HttpResponse α) :=
    match doRes with
    | .fail _ => none
    | .resp r => some r
  match writeErr w with
  | some e => ((none, some e), [req])
  | none => ((resp, none), [req])

/-- Embeds `putMultipart` from `http.go`: `doMultipart` with `http.MethodPut`. -/
def putMultipart (α : Type) (url filename : String) (w : WriterErrs)
    (doRes : DoOutcome α) :
    (Option (HttpResponse α) × Option String) × List Request :=
  doMultipart α "PUT" url filename w doRes

/-- Embeds `postMultipart` from `http.go`: `doMultipart` with `http.MethodPost`. -/
def postMultipart (α : Type) (url filename : String) (w : WriterErrs)
    (doRes : DoOutcome α) :
    (Option (HttpResponse α) × Option String) × List Request :=
  doMultipart α "POST" url filename w doRes

/-- Embeds `NewTilesetSourceResponse` from `tileset_source.go`. -/
structure NewTilesetSourceResponse where
  fileSizeBytes : Int
  files : Int
  id : String
  sourceSize : Int
  deriving DecidableEq, Repr

/-- Result of `PutTilesetSource`: the Go code dereferences `resp` without a
nil check after ignoring `putMultipart`'s dropped transport error, so the
nil-response/nil-error combination is a runtime panic, modelled explicitly. -/
inductive PutSourceResult where
  | panics
  | err (e : GoErr)
  | ok (v : NewTilesetSourceResponse)
  deriving DecidableEq, Repr

/-- Embeds `PutTilesetSource` from `tileset_source.go`.  `w` and `doRes` describe
the background-writer step errors and the transport outcome of the single
PUT it issues. -/
def PutTilesetSource (c : Client) (tilesetID : String) (w : WriterErrs)
    (doRes : DoOutcome NewTilesetSourceResponse) :
    PutSourceResult × List Request :=
  let url := baseURL ++ "/tilesets/v1/sources/" ++ c.username ++ "/" ++ tilesetID
    ++ "?access_token=" ++ c.accessToken
  let res := putMultipart NewTilesetSourceResponse url "filenamedoesntmatter" w doRes
  let reqs := res.2
  match res.1.2 with
  | some e => (.err (.operation ("upload failed, " ++ e)), reqs)
  | none =>
    match res.1.1 with
    | none => (.panics, reqs)
    | some resp =>
      if resp.statusCode ≠ 200 then
        (.err (.operation ("upload failed, non-200 response: "
          ++ toString resp.statusCode)), reqs)
      else
        match resp.body with
        | .error msg => (.err (.parse ("failed, err: " ++ msg)), reqs)
        | .ok v => (.ok v, reqs)

/-- Embeds `CreateTilesetSource` from `tileset_source.go`: delegates to
`PutTilesetSource`. -/
def CreateTilesetSource (c : Client) (tilesetID : String) (w : WriterErrs)
    (doRes : DoOutcome NewTilesetSourceResponse) :
    PutSourceResult × List Request :=
  PutTilesetSource c tilesetID w doRes

/-- Projects the error kind out of an operation result, `none` on success. -/
def excKind {b : Type} : Except GoErr b -> Option ErrKind
  | .error e => some e.kind
  | .ok _ => none

/-- Projects the error kind out of a `PutSourceResult`. -/
def putKind : PutSourceResult -> Option ErrKind
  | .err e => some e.kind
  | _ => none

/-- Projects the job id out of a `PublishTileset` result. -/
def publishedJobId : Except GoErr PublishTilesetJob -> Option String
  | .ok j => some j.jobId
  | .error _ => none

theorem strStartsWithList_append (p r : List Char) :
    strStartsWithList p (p ++ r) = true := by
  induction p with
  | nil => rfl
  | cons c cs ih => simp [strStartsWithList, ih]

theorem strContainsAux_of_startsWith (n l : List Char)
    (h : strStartsWithList n l = true) : strContainsAux n l = true := by
  cases l with
  | nil => simpa [strContainsAux] using h
  | cons c cs => simp [strContainsAux, h]

theorem strContainsAux_of_append (n pre post : List Char) :
    strContainsAux n (pre ++ n ++ post) = true := by
  induction pre with
  | nil =>
    have h : ([] : List Char) ++ n ++ post = n ++ post := by simp
    rw [h]
    exact strContainsAux_of_startsWith n (n ++ post) (strStartsWithList_append n post)
  | cons c cs ih =>
    have h : (c :: cs) ++ n ++ post = c :: (cs ++ n ++ post) := by simp
    rw [h, strContainsAux]
    rw [ih]
    simp

theorem hasPrefixGo_append (u s : String) : hasPrefixGo (u ++ s) u = true := by
  unfold hasPrefixGo
  rw [String.data_append]
  exact strStartsWithList_append u.data s.data

theorem hasPrefixGo_qualify (u t : String) :
    hasPrefixGo (qualifyTileset u t) u = true := by
  unfold qualifyTileset
  by_cases h : hasPrefixGo t u = true
  · simp [h]
  · rw [if_neg h]
    unfold hasPrefixGo
    rw [String.data_append, String.data_append, List.append_assoc]
    exact strStartsWithList_append u.data _

theorem qualifyTileset_self (u t : String) (h : hasPrefixGo t u = true) :
    qualifyTileset u t = t := by
  simp [qualifyTileset, h]

theorem qualifyTileset_idem (u t : String) :
    qualifyTileset u (qualifyTileset u t) = qualifyTileset u t :=
  qualifyTileset_self u (qualifyTileset u t) (hasPrefixGo_qualify u t)

theorem qualifyTileset_length (u t : String) (h : t.length ≠ 0) :
    (qualifyTileset u t).length ≠ 0 := by
  unfold qualifyTileset
  by_cases hp : hasPrefixGo t u = true
  · simpa [hp] using h
  · simp only [hp, Bool.false_eq_true, if_false]
    rw [String.length_append, String.length_append]
    have : ("." : String).length = 1 := rfl
    omega

theorem strContains_of_data (s x : String) (pre post : List Char)
    (h : s.data = pre ++ x.data ++ post) : strContains s x = true := by
  unfold strContains
  rw [h]
  exact strContainsAux_of_append x.data pre post

theorem string_empty_iff_length (s : String) : s = "" ↔ s.length = 0 := by
  constructor
  · intro h
    subst h
    rfl
  · intro h
    have hd : s.data = [] := List.length_eq_zero.mp h
    cases s
    simp_all

theorem updateTilesetRecipe_trace (c : Client) (t : String)
    (recipe : TilesetRecipe) (resp : HttpOutcome UpdateTilesetErrResponse)
    (h : t.length ≠ 0) :
    (UpdateTilesetRecipe c t recipe resp).2
      = [{ method := "PATCH",
           url := baseURL ++ "/tilesets/v1/" ++ qualifyTileset c.username t
             ++ "/recipe?access_token=" ++ c.accessToken }] := by
  unfold UpdateTilesetRecipe
  rw [if_neg h]
  cases resp with
  | fail m => rfl
  | resp s bd =>
    by_cases hs : s = 204
    · simp [hs]
    · cases bd <;> simp [hs]

theorem upsertTileset_trace (c : Client) (t : String) (recipe : TilesetRecipe)
    (r1 r2 : HttpOutcome UpdateTilesetErrResponse) (h : t.length ≠ 0) :
    (UpsertTileset c t recipe r1 r2).2
        = [{ method := "POST",
             url := baseURL ++ "/tilesets/v1/" ++ qualifyTileset c.username t
               ++ "?access_token=" ++ c.accessToken }] ∨
    (UpsertTileset c t recipe r1 r2).2
        = [{ method := "POST",
             url := baseURL ++ "/tilesets/v1/" ++ qualifyTileset c.username t
               ++ "?access_token=" ++ c.accessToken },
           { method := "PATCH",
             url := baseURL ++ "/tilesets/v1/" ++ qualifyTileset c.username t
               ++ "/recipe?access_token=" ++ c.accessToken }] := by
  unfold UpsertTileset
  rw [if_neg h]
  cases r1 with
  | fail m => left; rfl
  | resp s bd =>
    by_cases hs : s = 200
    · left; simp [hs]
    · cases bd with
      | error m => left; simp [hs]
      | ok j =>
        by_cases hc : strContains j.message "already exists" = true
        · right
          simp only [hs, if_false, hc, if_true]
          have hq : (qualifyTileset c.username t).length ≠ 0 :=
            qualifyTileset_length c.username t h
          rw [updateTilesetRecipe_trace c (qualifyTileset c.username t) recipe r2 hq,
            qualifyTileset_idem]
        · left
          simp [hs, hc]

theorem publishTileset_trace (c : Client) (t : String)
    (resp : HttpOutcome PublishTilesetResponse) (h : t.length ≠ 0) :
    (PublishTileset c t resp).2
      = [{ method := "PATCH",
           url := baseURL ++ "/tilesets/v1/" ++ qualifyTileset c.username t
             ++ "/publish?access_token=" ++ c.accessToken }] := by
  unfold PublishTileset
  rw [if_neg h]
  cases resp with
  | fail m => rfl
  | resp s bd =>
    by_cases hs : s = 404
    · simp [hs]
    · cases bd <;> simp [hs]

theorem putTilesetSource_trace (c : Client) (tid : String) (w : WriterErrs)
    (d : DoOutcome NewTilesetSourceResponse) :
    (PutTilesetSource c tid w d).2
      = [{ method := "PUT",
           url := baseURL ++ "/tilesets/v1/sources/" ++ c.username ++ "/" ++ tid
             ++ "?access_token=" ++ c.accessToken }] := by
  unfold PutTilesetSource putMultipart doMultipart
  cases hw : writeErr w with
  | none =>
    cases d with
    | fail m => simp [hw]
    | resp r =>
      simp only [hw]
      by_cases hs : r.statusCode = 200
      · cases hb : r.body <;> simp [hs, hb]
      · simp [hs]
  | some e => simp [hw]

/-- C5: `NewClient(accessToken, username)` returns a validation error if and
only if the username or the access token is empty; with both non-empty it
returns the client, and construction issues no HTTP request (its request
trace is empty). -/
theorem newClient_validation (accessToken username : String) :
    (excKind (NewClient accessToken username).1 = some .validation ↔
      (username = "" ∨ accessToken = "")) ∧
    (username ≠ "" → accessToken ≠ "" →
      NewClient accessToken username
        = (.ok { username := username, accessToken := accessToken }, [])) ∧
    (NewClient accessToken username).2 = [] := by
  by_cases hu : username = ""
  · have hu' : username.length = 0 := (string_empty_iff_length username).mp hu
    refine ⟨?_, ?_, ?_⟩
    · simp [NewClient, hu', excKind, GoErr.kind, hu]
    · intro h
      exact absurd hu h
    · simp [NewClient, hu']
  · have hu' : username.length ≠ 0 :=
      fun hh => hu ((string_empty_iff_length username).mpr hh)
    by_cases ha : accessToken = ""
    · have ha' : accessToken.length = 0 := (string_empty_iff_length accessToken).mp ha
      refine ⟨?_, ?_, ?_⟩
      · simp [NewClient, hu', ha', excKind, GoErr.kind, ha, hu]
      · intro _ h
        exact absurd ha h
      · simp [NewClient, hu', ha']
    · have ha' : accessToken.length ≠ 0 :=
        fun hh => ha ((string_empty_iff_length accessToken).mpr hh)
      refine ⟨?_, ?_, ?_⟩
      · simp [NewClient, hu', ha', excKind, hu, ha]
      · intro _ _
        simp [NewClient, hu', ha']
      · simp [NewClient, hu', ha']

/-- Witness for C5 at concrete credentials. -/
theorem newClient_validation_witness :
    NewClient "token123" "alice"
      = (.ok { username := "alice", accessToken := "token123" }, []) :=
  (newClient_validation "token123" "alice").2.1 (by decide) (by decide)

/-- C9: `doMultipart` sends the request with method PUT for every value of
its method argument, so `putMultipart` and `postMultipart` issue identical
requests for the same inputs; in particular `postMultipart` never sends a
POST. -/
theorem doMultipart_always_put (α : Type) (method url filename : String)
    (w : WriterErrs) (doRes : DoOutcome α) :
    doMultipart α method url filename w doRes
        = putMultipart α url filename w doRes ∧
    postMultipart α url filename w doRes = putMultipart α url filename w doRes ∧
    (doMultipart α method url filename w doRes).2
        = [{ method := "PUT", url := url }] := by
  refine ⟨rfl, rfl, ?_⟩
  unfold doMultipart
  cases hw : writeErr w <;> simp [hw]

/-- C10: `Poll` never inspects the HTTP status code: responses with the same
body give the same result whatever the status; a decodable body (even under
a 404 or any non-200 status) yields the snapshot with no error; errors arise
only from transport failure or an undecodable body. -/
theorem poll_ignores_status (j : PublishTilesetJob) (s1 s2 : Nat)
    (bd : Except String PollPublishJobResponse)
    (snap : PollPublishJobResponse) (m : String) :
    j.Poll (.resp s1 bd) = j.Poll (.resp s2 bd) ∧
    (j.Poll (.resp s1 (.ok snap))).1 = .ok snap ∧
    (j.Poll (.fail m)).1 = .error (.operation ("poll job failed, err: " ++ m)) ∧
    (j.Poll (.resp s1 (.error m))).1
      = .error (.parse ("of job status response failed, err: " ++ m)) := by
  refine ⟨?_, rfl, rfl, rfl⟩
  unfold PublishTilesetJob.Poll
  cases bd <;> rfl

/-- C3: among the errors of the background writer's four steps only the
first non-nil one is recorded — a later `setErr` call leaves a recorded
error unchanged, and the recorded value is the first-some of the four step
errors — and when an error was recorded, `doMultipart` returns it with a
nil response even when the HTTP call itself produced a response. -/
theorem multipart_first_error (α : Type) (method url filename : String)
    (w : WriterErrs) (doRes : DoOutcome α) (r : String)
    (he : writeErr w = some r) :
    (∀ x e, setErr (some x) e = some x) ∧
    writeErr w
      = (w.createFormFileErr <|> w.copyErr <|> w.formCloseErr <|> w.pipeCloseErr) ∧
    (doMultipart α method url filename w doRes).1 = (none, some r) := by
  refine ⟨?_, ?_, ?_⟩
  · intro x e
    cases e <;> rfl
  · cases w with
    | mk e1 e2 e3 e4 =>
      cases e1 <;> cases e2 <;> cases e3 <;> cases e4 <;> rfl
  · simp [doMultipart, he]

/-- Witness for C3: a later step error does not displace the first one, and
the recorded error wins over a successful-looking 200 response. -/
theorem multipart_first_error_witness :
    (doMultipart Unit "POST" "http://u" "f"
      { createFormFileErr := some "boom", copyErr := some "late",
        formCloseErr := none, pipeCloseErr := none }
      (.resp { statusCode := 200, body := .ok () })).1 = (none, some "boom") :=
  (multipart_first_error Unit "POST" "http://u" "f"
    { createFormFileErr := some "boom", copyErr := some "late",
      formCloseErr := none, pipeCloseErr := none }
    (.resp { statusCode := 200, body := .ok () }) "boom" rfl).2.2

/-- C8: `UpdateTilesetRecipe` returns no error if and only if the PATCH
response status is 204; for any other status with a decodable body it
returns the single combined error built from the structured message and the
joined sub-error list. -/
theorem updateTilesetRecipe_spec (c : Client) (tileset : String)
    (recipe : TilesetRecipe) (status : Nat)
    (bd : Except String UpdateTilesetErrResponse)
    (body : UpdateTilesetErrResponse) (ht : tileset.length ≠ 0) :
    ((UpdateTilesetRecipe c tileset recipe (.resp status bd)).1 = none ↔
      status = 204) ∧
    (status ≠ 204 → bd = .ok body →
      (UpdateTilesetRecipe c tileset recipe (.resp status bd)).1
        = some (.plain (body.message ++ ", errors: "
            ++ String.intercalate "," body.errors))) := by
  unfold UpdateTilesetRecipe
  rw [if_neg ht]
  constructor
  · by_cases hs : status = 204
    · simp [hs]
    · cases bd <;> simp [hs]
  · intro hs hb
    subst hb
    simp [hs]

/-- Witness for C8: a 204 yields no error; a 400 with message and two
sub-errors yields the combined error value. -/
theorem updateTilesetRecipe_spec_witness :
    (UpdateTilesetRecipe { username := "alice", accessToken := "tok" } "t"
      { version := 1, layers := [] } (.resp 204 (.ok ⟨"", []⟩))).1 = none ∧
    (UpdateTilesetRecipe { username := "alice", accessToken := "tok" } "t"
      { version := 1, layers := [] }
      (.resp 400 (.ok ⟨"bad recipe", ["e1", "e2"]⟩))).1
      = some (.plain "bad recipe, errors: e1,e2") := by
  constructor
  · exact (updateTilesetRecipe_spec { username := "alice", accessToken := "tok" }
      "t" { version := 1, layers := [] } 204 (.ok ⟨"", []⟩) ⟨"", []⟩
      (by decide)).1.mpr rfl
  · have h := (updateTilesetRecipe_spec { username := "alice", accessToken := "tok" }
      "t" { version := 1, layers := [] } 400 (.ok ⟨"bad recipe", ["e1", "e2"]⟩)
      ⟨"bad recipe", ["e1", "e2"]⟩ (by decide)).2 (by decide) rfl
    exact h.trans (by decide)

/-- C7: `PublishTileset` returns the not-found error kind if and only if the
response status is 404 (given a response was obtained), transport failure
yields the operation kind, and the not-found kind is distinct from the
operation and parse kinds. -/
theorem publishTileset_notFound (c : Client) (tileset : String) (status : Nat)
    (bd : Except String PublishTilesetResponse) (m : String)
    (ht : tileset.length ≠ 0) :
    (excKind (PublishTileset c tileset (.resp status bd)).1 = some .notFound ↔
      status = 404) ∧
    excKind (PublishTileset c tileset (.fail m)).1 = some .operation ∧
    ErrKind.notFound ≠ ErrKind.operation ∧ ErrKind.notFound ≠ ErrKind.parse := by
  refine ⟨?_, ?_, by decide, by decide⟩
  · unfold PublishTileset
    rw [if_neg ht]
    by_cases hs : status = 404
    · simp [hs, excKind, GoErr.kind]
    · cases bd <;> simp [hs, excKind, GoErr.kind]
  · unfold PublishTileset
    rw [if_neg ht]
    rfl

/-- Witness for C7: a 404 publish yields the not-found kind, a 200 does not. -/
theorem publishTileset_notFound_witness :
    excKind (PublishTileset { username := "alice", accessToken := "tok" } "t"
      (.resp 404 (.ok ⟨"", "", ""⟩))).1 = some .notFound ∧
    ¬ excKind (PublishTileset { username := "alice", accessToken := "tok" } "t"
      (.resp 200 (.ok ⟨"", "", ""⟩))).1 = some .notFound := by
  constructor
  · exact (publishTileset_notFound { username := "alice", accessToken := "tok" }
      "t" 404 (.ok ⟨"", "", ""⟩) "m" (by decide)).1.mpr rfl
  · intro hc
    exact absurd ((publishTileset_notFound { username := "alice", accessToken := "tok" }
      "t" 200 (.ok ⟨"", "", ""⟩) "m" (by decide)).1.mp hc) (by decide)

/-- C4: on a decoded publish response the job handle's id is the primary
`jobId` field when non-empty, the alternate `job_id` field when the primary
is empty and the alternate is not, and the empty string — still with a nil
error — when both are empty. -/
theorem publishTileset_jobId (c : Client) (tileset : String) (status : Nat)
    (body : PublishTilesetResponse) (ht : tileset.length ≠ 0)
    (hs : status ≠ 404) :
    (PublishTileset c tileset (.resp status (.ok body))).1
      = .ok { message := body.message,
              jobId := if body.jobId.length = 0 && body.jobIdSnakeCased.length != 0
                       then body.jobIdSnakeCased else body.jobId,
              tileset := qualifyTileset c.username tileset,
              client := c } ∧
    (body.jobId ≠ "" →
      publishedJobId (PublishTileset c tileset (.resp status (.ok body))).1
        = some body.jobId) ∧
    (body.jobId = "" → body.jobIdSnakeCased ≠ "" →
      publishedJobId (PublishTileset c tileset (.resp status (.ok body))).1
        = some body.jobIdSnakeCased) ∧
    (body.jobId = "" → body.jobIdSnakeCased = "" →
      publishedJobId (PublishTileset c tileset (.resp status (.ok body))).1
        = some "") := by
  have hmain : (PublishTileset c tileset (.resp status (.ok body))).1
      = .ok { message := body.message,
              jobId := if body.jobId.length = 0 && body.jobIdSnakeCased.length != 0
                       then body.jobIdSnakeCased else body.jobId,
              tileset := qualifyTileset c.username tileset,
              client := c } := by
    unfold PublishTileset
    rw [if_neg ht]
    simp [hs]
  refine ⟨hmain, ?_, ?_, ?_⟩
  · intro h
    have h' : body.jobId.length ≠ 0 :=
      fun hh => h ((string_empty_iff_length _).mpr hh)
    rw [hmain]
    simp [publishedJobId, h']
  · intro h1 h2
    have h1' : body.jobId.length = 0 := (string_empty_iff_length _).mp h1
    have h2' : body.jobIdSnakeCased.length ≠ 0 :=
      fun hh => h2 ((string_empty_iff_length _).mpr hh)
    rw [hmain]
    simp [publishedJobId, h1', h2']
  · intro h1 h2
    have h1' : body.jobId.length = 0 := (string_empty_iff_length _).mp h1
    have h2' : body.jobIdSnakeCased.length = 0 := (string_empty_iff_length _).mp h2
    rw [hmain]
    simp [publishedJobId, h1', h2', h1]

/-- Witness for C4: a response carrying only the alternate snake-cased field
yields a job handle whose id equals that alternate value. -/
theorem publishTileset_jobId_witness :
    publishedJobId (PublishTileset { username := "alice", accessToken := "tok" }
      "t" (.resp 200 (.ok ⟨"ok", "", "job-7"⟩))).1 = some "job-7" :=
  (publishTileset_jobId { username := "alice", accessToken := "tok" } "t" 200
    ⟨"ok", "", "job-7"⟩ (by decide) (by decide)).2.2.1 rfl (by decide)

/-- C2: on a non-200 upsert POST whose decoded error message contains
"already exists", `UpsertTileset` issues exactly one POST followed by
exactly one recipe PATCH against the same qualified tileset and returns
exactly the PATCH's result (succeeding iff the PATCH succeeds); on a 200 it
returns no error after the single POST. -/
theorem upsertTileset_conflict (c : Client) (tileset : String)
    (recipe : TilesetRecipe) (status : Nat) (body : UpdateTilesetErrResponse)
    (patchResp : HttpOutcome UpdateTilesetErrResponse)
    (bd2 : Except String UpdateTilesetErrResponse)
    (ht : tileset.length ≠ 0) (hs : status ≠ 200)
    (hm : strContains body.message "already exists" = true) :
    UpsertTileset c tileset recipe (.resp status (.ok body)) patchResp
      = ((UpdateTilesetRecipe c (qualifyTileset c.username tileset) recipe
            patchResp).1,
         [{ method := "POST",
            url := baseURL ++ "/tilesets/v1/" ++ qualifyTileset c.username tileset
              ++ "?access_token=" ++ c.accessToken },
          { method := "PATCH",
            url := baseURL ++ "/tilesets/v1/" ++ qualifyTileset c.username tileset
              ++ "/recipe?access_token=" ++ c.accessToken }]) ∧
    ((UpsertTileset c tileset recipe (.resp status (.ok body)) patchResp).1 = none
      ↔ (UpdateTilesetRecipe c (qualifyTileset c.username tileset) recipe
            patchResp).1 = none) ∧
    UpsertTileset c tileset recipe (.resp 200 bd2) patchResp
      = (none,
         [{ method := "POST",
            url := baseURL ++ "/tilesets/v1/" ++ qualifyTileset c.username tileset
              ++ "?access_token=" ++ c.accessToken }]) := by
  have hq : (qualifyTileset c.username tileset).length ≠ 0 :=
    qualifyTileset_length c.username tileset ht
  have htrace := updateTilesetRecipe_trace c (qualifyTileset c.username tileset)
    recipe patchResp hq
  rw [qualifyTileset_idem] at htrace
  have hpair : UpsertTileset c tileset recipe (.resp status (.ok body)) patchResp
      = ((UpdateTilesetRecipe c (qualifyTileset c.username tileset) recipe
            patchResp).1,
         [{ method := "POST",
            url := baseURL ++ "/tilesets/v1/" ++ qualifyTileset c.username tileset
              ++ "?access_token=" ++ c.accessToken },
          { method := "PATCH",
            url := baseURL ++ "/tilesets/v1/" ++ qualifyTileset c.username tileset
              ++ "/recipe?access_token=" ++ c.accessToken }]) := by
    unfold UpsertTileset
    rw [if_neg ht]
    simp only [hs, if_false, hm, if_true]
    rw [htrace]
  refine ⟨hpair, ?_, ?_⟩
  · rw [congrArg Prod.fst hpair]
  · unfold UpsertTileset
    rw [if_neg ht]
    simp

/-- Witness for C2: the conflict path at concrete inputs — one POST, one
PATCH against `alice.t`, overall success since the PATCH returns 204. -/
theorem upsertTileset_conflict_witness :
    UpsertTileset { username := "alice", accessToken := "tok" } "t"
      { version := 1, layers := [] }
      (.resp 400 (.ok ⟨"tileset alice.t already exists", []⟩))
      (.resp 204 (.ok ⟨"", []⟩))
      = (none,
         [{ method := "POST",
            url := "https://api.mapbox.com/tilesets/v1/alice.t?access_token=tok" },
          { method := "PATCH",
            url := "https://api.mapbox.com/tilesets/v1/alice.t/recipe?access_token=tok" }]) := by
  have h := (upsertTileset_conflict { username := "alice", accessToken := "tok" }
    "t" { version := 1, layers := [] } 400 ⟨"tileset alice.t already exists", []⟩
    (.resp 204 (.ok ⟨"", []⟩)) (.ok ⟨"", []⟩)
    (by decide) (by decide) (by decide)).1
  exact h.trans (by decide)

/-- C6 counterexample: the claim says transport failure and a non-200 status
produce error kinds distinguishable from each other.  At concrete inputs a
transport failure (surfaced through the recorded pipe write error, the only
path by which it surfaces at all) and a 500 response produce errors of the
very same kind — both wrap the operation sentinel — so the claim is false. -/
theorem putTilesetSource_kinds_counterexample :
    putKind (PutTilesetSource { username := "alice", accessToken := "tok" } "t"
      { createFormFileErr := none, copyErr := some "io: read/write on closed pipe",
        formCloseErr := none, pipeCloseErr := none }
      (.fail "dial tcp: connection refused")).1 = some .operation ∧
    putKind (PutTilesetSource { username := "alice", accessToken := "tok" } "t"
      { createFormFileErr := none, copyErr := none,
        formCloseErr := none, pipeCloseErr := none }
      (.resp { statusCode := 500, body := .error "not json" })).1
      = some .operation ∧
    putKind (PutTilesetSource { username := "alice", accessToken := "tok" } "t"
      { createFormFileErr := none, copyErr := some "io: read/write on closed pipe",
        formCloseErr := none, pipeCloseErr := none }
      (.fail "dial tcp: connection refused")).1
      = putKind (PutTilesetSource { username := "alice", accessToken := "tok" } "t"
          { createFormFileErr := none, copyErr := none,
            formCloseErr := none, pipeCloseErr := none }
          (.resp { statusCode := 500, body := .error "not json" })).1 := by
  refine ⟨by decide, by decide, by decide⟩

/-- C6 (amended): `PutTilesetSource` has these outcomes — a recorded
background-write error (the only path by which a transport failure
surfaces, since `doMultipart` drops the error returned by the HTTP call)
yields an operation-kind error; a transport failure with no recorded write
error makes the code dereference a nil response (a panic); a non-200 status
yields an operation-kind error, the same kind as the transport case; an
undecodable 200 body yields a parse-kind error, distinct from the operation
kind; and a 200 response with a decodable body returns the parsed summary
with no error. -/
theorem putTilesetSource_errors (c : Client) ( tid : String) (w : WriterErrs)
    (r : HttpResponse NewTilesetSourceResponse) (e m : String)
    (v : NewTilesetSourceResponse) :
    (writeErr w = some e → ∀ d : DoOutcome NewTilesetSourceResponse,
      (PutTilesetSource c tid w d).1
        = .err (.operation ("upload failed, " ++ e))) ∧
    (writeErr w = none →
      (PutTilesetSource c tid w (.fail m)).1 = .panics) ∧
    (writeErr w = none → r.statusCode ≠ 200 →
      (PutTilesetSource c tid w (.resp r)).1
        = .err (.operation ("upload failed, non-200 response: "
            ++ toString r.statusCode))) ∧
    (writeErr w = none → r.statusCode = 200 → r.body = .error m →
      (PutTilesetSource c tid w (.resp r)).1
        = .err (.parse ("failed, err: " ++ m))) ∧
    (writeErr w = none → r.statusCode = 200 → r.body = .ok v →
      (PutTilesetSource c tid w (.resp r)).1 = .ok v) ∧
    ErrKind.parse ≠ ErrKind.operation := by
  refine ⟨?_, ?_, ?_, ?_, ?_, by decide⟩
  · intro he d
    simp [PutTilesetSource, putMultipart, doMultipart, he]
  · intro he
    simp [PutTilesetSource, putMultipart, doMultipart, he]
  · intro he hsc
    simp [PutTilesetSource, putMultipart, doMultipart, he, hsc]
  · intro he hsc hb
    simp [PutTilesetSource, putMultipart, doMultipart, he, hsc, hb]
  · intro he hsc hb
    simp [PutTilesetSource, putMultipart, doMultipart, he, hsc, hb]

/-- Witness for C6 (amended): a 200 with a decoded summary succeeds; a
recorded write error surfaces as an operation error. -/
theorem putTilesetSource_errors_witness :
    (PutTilesetSource { username := "alice", accessToken := "tok" } "t"
      { createFormFileErr := none, copyErr := none,
        formCloseErr := none, pipeCloseErr := none }
      (.resp { statusCode := 200,
               body := .ok { fileSizeBytes := 10, files := 1,
                             id := "src-1", sourceSize := 10 } })).1
      = .ok { fileSizeBytes := 10, files := 1, id := "src-1", sourceSize := 10 } ∧
    (PutTilesetSource { username := "alice", accessToken := "tok" } "t"
      { createFormFileErr := some "disk full", copyErr := none,
        formCloseErr := none, pipeCloseErr := none }
      (.fail "conn reset")).1
      = .err (.operation "upload failed, disk full") := by
  constructor
  · exact (putTilesetSource_errors { username := "alice", accessToken := "tok" }
      "t" { createFormFileErr := none, copyErr := none,
            formCloseErr := none, pipeCloseErr := none }
      { statusCode := 200,
        body := .ok { fileSizeBytes := 10, files := 1,
                      id := "src-1", sourceSize := 10 } }
      "e" "m" { fileSizeBytes := 10, files := 1, id := "src-1",
                sourceSize := 10 }).2.2.2.2.1 rfl rfl rfl
  · exact ((putTilesetSource_errors { username := "alice", accessToken := "tok" }
      "t" { createFormFileErr := some "disk full", copyErr := none,
            formCloseErr := none, pipeCloseErr := none }
      { statusCode := 200, body := .error "x" } "disk full" "m"
      { fileSizeBytes := 0, files := 0, id := "", sourceSize := 0 }).1 rfl
      (.fail "conn reset"))

/-- C1 counterexample: the claim covers `PutTilesetSource` among the
operations whose request URL carries the dot-qualified identifier
`username ++ "." ++ id`.  With username `"alice"` and the unqualified id
`"my-tileset"`, the URL `PutTilesetSource` issues carries
`sources/alice/my-tileset` and does not contain `"alice.my-tileset"`, so
the claim is false for that operation. -/
theorem tilesetQualified_counterexample :
    hasPrefixGo "my-tileset" "alice" = false ∧
    (PutTilesetSource { username := "alice", accessToken := "tok" } "my-tileset"
      { createFormFileErr := none, copyErr := none,
        formCloseErr := none, pipeCloseErr := none }
      (.resp { statusCode := 200,
               body := .ok { fileSizeBytes := 1, files := 1,
                             id := "s", sourceSize := 1 } })).2
      = [{ method := "PUT",
           url := "https://api.mapbox.com/tilesets/v1/sources/alice/my-tileset?access_token=tok" }] ∧
    strContains
      "https://api.mapbox.com/tilesets/v1/sources/alice/my-tileset?access_token=tok"
      "alice.my-tileset" = false := by
  refine ⟨by decide, by decide, by decide⟩

/-- C1 (amended): for `UpsertTileset`, `UpdateTilesetRecipe` and
`PublishTileset`, a non-empty tileset id that does not start with the
client's username is qualified as `username ++ "." ++ id`, and every
request those operations issue carries that qualified identifier in its
URL; `PutTilesetSource` instead qualifies by path position — every request
it issues carries `username ++ "/" ++ id` in its URL. -/
theorem tilesetQualified_urls (c : Client) (tileset : String)
    (recipe : TilesetRecipe) (r1 r2 : HttpOutcome UpdateTilesetErrResponse)
    (rp : HttpOutcome PublishTilesetResponse)
    (w : WriterErrs) (d : DoOutcome NewTilesetSourceResponse)
    (ht : tileset.length ≠ 0) (hp : hasPrefixGo tileset c.username = false) :
    (∀ req ∈ (UpsertTileset c tileset recipe r1 r2).2,
        strContains req.url (c.username ++ "." ++ tileset) = true) ∧
    (∀ req ∈ (UpdateTilesetRecipe c tileset recipe r1).2,
        strContains req.url (c.username ++ "." ++ tileset) = true) ∧
    (∀ req ∈ (PublishTileset c tileset rp).2,
        strContains req.url (c.username ++ "." ++ tileset) = true) ∧
    (∀ req ∈ (PutTilesetSource c tileset w d).2,
        strContains req.url (c.username ++ "/" ++ tileset) = true) := by
  have hq : qualifyTileset c.username tileset = c.username ++ "." ++ tileset := by
    unfold qualifyTileset
    rw [if_neg (by simp [hp])]
  refine ⟨?_, ?_, ?_, ?_⟩
  · intro req hreq
    rcases upsertTileset_trace c tileset recipe r1 r2 ht with h | h <;>
      rw [h, hq] at hreq
    · rw [List.mem_singleton] at hreq
      subst hreq
      exact strContains_of_data _ _ (baseURL.data ++ "/tilesets/v1/".data)
        ("?access_token=".data ++ c.accessToken.data) (by simp [String.data_append])
    · rcases List.mem_cons.mp hreq with h2 | h2
      · subst h2
        exact strContains_of_data _ _ (baseURL.data ++ "/tilesets/v1/".data)
          ("?access_token=".data ++ c.accessToken.data) (by simp [String.data_append])
      · rw [List.mem_singleton] at h2
        subst h2
        exact strContains_of_data _ _ (baseURL.data ++ "/tilesets/v1/".data)
          ("/recipe?access_token=".data ++ c.accessToken.data)
          (by simp [String.data_append])
  · intro req hreq
    rw [updateTilesetRecipe_trace c tileset recipe r1 ht, hq,
      List.mem_singleton] at hreq
    subst hreq
    exact strContains_of_data _ _ (baseURL.data ++ "/tilesets/v1/".data)
      ("/recipe?access_token=".data ++ c.accessToken.data)
      (by simp [String.data_append])
  · intro req hreq
    rw [publishTileset_trace c tileset rp ht, hq, List.mem_singleton] at hreq
    subst hreq
    exact strContains_of_data _ _ (baseURL.data ++ "/tilesets/v1/".data)
      ("/publish?access_token=".data ++ c.accessToken.data)
      (by simp [String.data_append])
  · intro req hreq
    rw [putTilesetSource_trace c tileset w d, List.mem_singleton] at hreq
    subst hreq
    exact strContains_of_data _ _ (baseURL.data ++ "/tilesets/v1/sources/".data)
      ("?access_token=".data ++ c.accessToken.data)
      (by simp [String.data_append])

/-- Witness for C1 (amended) at a concrete client and id. -/
theorem tilesetQualified_urls_witness :
    strContains "https://api.mapbox.com/tilesets/v1/alice.t?access_token=tok"
      ("alice" ++ "." ++ "t") = true := by
  have h := (tilesetQualified_urls { username := "alice", accessToken := "tok" }
    "t" { version := 1, layers := [] } (.resp 200 (.ok ⟨"", []⟩))
    (.resp 200 (.ok ⟨"", []⟩)) (.resp 200 (.ok ⟨"", "", ""⟩))
    { createFormFileErr := none, copyErr := none,
      formCloseErr := none, pipeCloseErr := none }
    (.resp { statusCode := 200,
             body := .ok { fileSizeBytes := 1, files := 1,
                           id := "s", sourceSize := 1 } })
    (by decide) (by decide)).1
  exact h { method := "POST",
            url := "https://api.mapbox.com/tilesets/v1/alice.t?access_token=tok" }
    (by decide)

end Mapbox
